import Mathlib

/-!
# june-web-audio-experiment: `src/app.js`

A shallow embedding of the audio preprocessing and transcription workflow of
`src/app.js` (`initTranscriber`, `convertAudio`, `handleFile`, `updateStatus`,
`showCopyFeedback`), followed by theorems about it.

Modelling conventions.

* The page state the program reads and writes (the module variable
  `transcriber` and the DOM properties it assigns) is the record `World`.
  Every asynchronous step is awaited in sequence by the source, so each
  function is a state-passing function `World → result × World`.
* A function that can throw returns `Except JsError α`; `try/finally` and
  `try/catch` are spelled out as matches on that result.
* The browser and the transformers library are external. What they answer
  during one submission is the record `Platform` (and `File` for the dropped
  file). The theorems quantify over every `Platform`.
* Calls to external collaborators are appended, in program order, to
  `World.trace`. The trace is ghost state: the program never reads it.
* Numbers: a decoded duration is a finite double, hence a rational; it is
  modelled as `ℚ` and arithmetic on it is exact (IEEE rounding of the product
  `duration * 16000` is not modelled).
* Timers: `setTimeout` is recorded in the trace; the callbacks, which only
  restyle the page after a delay, are not run.
-/

namespace JuneWebAudio

/-! ## Data model -/

/-- A thrown or rejected JavaScript value, seen through the one property the
program reads from it, `message` (`none`: the value has no `message`). Thrown
values are taken to be values on which a property read is defined, as are the
`Error` and `DOMException` objects the platform calls reject with. -/
structure JsError where
  message : Option String
deriving DecidableEq, Repr

/-- Sequence of samples (a `Float32Array`). -/
abbrev Samples := List ℚ

/-- Result of `file.arrayBuffer()`. -/
structure ArrayBuffer where
  bytes : List ℕ
deriving DecidableEq, Repr

/-- An `AudioBuffer` produced by `decodeAudioData`. -/
structure DecodedBuffer where
  duration : ℚ
  sampleRate : ℕ
  numberOfChannels : ℕ
deriving DecidableEq, Repr

/-- Arguments of `new OfflineAudioContext(numberOfChannels, length, sampleRate)`. -/
structure OfflineRequest where
  numberOfChannels : ℕ
  length : ℤ
  sampleRate : ℕ
deriving DecidableEq, Repr

/-- An `AudioBuffer` produced by `startRendering`. -/
structure RenderedBuffer where
  channels : List Samples
deriving DecidableEq, Repr

/-- The `state` attribute of an `AudioContext`. -/
inductive ContextState where
  | suspended
  | running
  | closed
deriving DecidableEq, Repr

/-- Handle of a loaded speech-recognition pipeline (always truthy). -/
structure Transcriber where
  id : ℕ
deriving DecidableEq, Repr

/-- Second argument of the call `transcriber(audioData, options)`. -/
structure TranscribeOptions where
  language : String
  chunk_length_s : ℕ
  stride_length_s : ℕ
deriving DecidableEq, Repr

/-- Value the transcriber resolves with. -/
structure TranscriptionResult where
  text : String
deriving DecidableEq, Repr

/-- Calls made by the program, in program order. -/
inductive Event where
  | updateStatus (msg : String)
  | arrayBuffer
  | newAudioContext
  | decodeAudioData (buf : ArrayBuffer)
  | durationCheck (duration : ℚ)
  | newOfflineContext (req : OfflineRequest)
  | startRendering
  | close
  | pipeline (task : String) (model : String)
  | consoleLog (msg : String)
  | transcribe (t : Transcriber) (options : TranscribeOptions)
  | clipboardWrite (text : String)
  | showCopyFeedback
  | consoleError (error : JsError)
  | setTimeout (ms : ℕ)
deriving DecidableEq, Repr

/-- The dropped file: what `file.arrayBuffer()` resolves or rejects with. -/
structure File where
  arrayBuffer : Except JsError ArrayBuffer

/-- Answers of the browser and of the transformers library during one
submission. `newAudioContext` gives the state the new context reports;
`clipboard` is `none` when `navigator.clipboard` is undefined;
`copyFeedback` is the fault, if any, met while `showCopyFeedback` runs. -/
structure Platform where
  newAudioContext : Except JsError ContextState
  decodeAudioData : ArrayBuffer → Except JsError DecodedBuffer
  startRendering : OfflineRequest → DecodedBuffer → Except JsError RenderedBuffer
  pipeline : String → String → Except JsError Transcriber
  transcribe : Transcriber → Samples → TranscribeOptions → Except JsError TranscriptionResult
  clipboard : Option (String → Except JsError Unit)
  copyFeedback : Option JsError

/-- Page state: the module variable `transcriber`, the DOM properties the
program assigns, the native audio context of the latest `convertAudio` call,
and the trace of calls. -/
structure World where
  transcriber : Option Transcriber
  statusText : String
  statusColor : String
  transcriptValue : String
  outputHidden : Bool
  dropHidden : Bool
  statusHidden : Bool
  copyFeedbackShown : Bool
  audioContext : Option ContextState
  trace : List Event
deriving DecidableEq, Repr

/-! ## The program -/

/-- Line 9. -/
def MODEL_NAME : String := "Xenova/whisper-tiny"

/-- Line 42. -/
def MAX_DURATION_SEC : ℤ := 120

/-- Append one call to the trace. -/
def World.log (w : World) (e : Event) : World :=
  { w with trace := w.trace ++ [e] }

/-- Lines 144-146. -/
def updateStatus (msg : String) (w : World) : World :=
  { w with statusText := msg, trace := w.trace ++ [Event.updateStatus msg] }

/-- The function `Math.round` on a finite number: nearest integer, halves towards +∞. -/
def mathRound (x : ℚ) : ℤ := ⌊x + 1 / 2⌋

/-- The function `Math.ceil` on a finite number. -/
def mathCeil (x : ℚ) : ℤ := ⌈x⌉

/-- Template-literal rendering of an integral number (decimal digits, as
JavaScript prints integers below 10^21). -/
def numberToString (n : ℤ) : String := toString n

/-- The error constructed at line 58. -/
def tooLongError (duration : ℚ) : JsError :=
  { message := some ("Audio too long (" ++ numberToString (mathRound duration) ++ "s). Limit is "
      ++ numberToString MAX_DURATION_SEC ++ "s.") }

/-- Lines 57-59: the duration guard. -/
def checkDuration (duration : ℚ) : Except JsError Unit :=
  if duration > (MAX_DURATION_SEC : ℚ) then Except.error (tooLongError duration) else Except.ok ()

/-- Lines 62-65: the arguments given to `new OfflineAudioContext`. -/
def offlineRequest (decodedBuffer : DecodedBuffer) : OfflineRequest :=
  let targetSampleRate : ℕ := 16000
  let targetLength : ℤ := mathCeil (decodedBuffer.duration * targetSampleRate)
  { numberOfChannels := 1, length := targetLength, sampleRate := targetSampleRate }

/-- The method `AudioBuffer.getChannelData(i)`; an index outside the buffer throws. -/
def getChannelData (b : RenderedBuffer) (i : ℕ) : Except JsError Samples :=
  match b.channels.get? i with
  | some s => Except.ok s
  | none => Except.error { message := some "IndexSizeError" }

/-- Lines 54-72: the body of the `try` block of `convertAudio`. -/
def convertAudioTry (p : Platform) (arrayBuffer : ArrayBuffer) (w : World) :
    Except JsError Samples × World :=
  let w := w.log (Event.decodeAudioData arrayBuffer)
  match p.decodeAudioData arrayBuffer with
  | Except.error e => (Except.error e, w)
  | Except.ok decodedBuffer =>
    let w := w.log (Event.durationCheck decodedBuffer.duration)
    match checkDuration decodedBuffer.duration with
    | Except.error e => (Except.error e, w)
    | Except.ok () =>
      let w := w.log (Event.newOfflineContext (offlineRequest decodedBuffer))
      let w := w.log Event.startRendering
      match p.startRendering (offlineRequest decodedBuffer) decodedBuffer with
      | Except.error e => (Except.error e, w)
      | Except.ok renderedBuffer => (getChannelData renderedBuffer 0, w)

/-- Lines 74-78: the `finally` block of `convertAudio`. On a context that is
not closed, `close()` resolves and leaves it closed. -/
def convertAudioFinally (w : World) : World :=
  match w.audioContext with
  | some ContextState.closed => w
  | some _ => { w with audioContext := some ContextState.closed, trace := w.trace ++ [Event.close] }
  | none => w

/-- Lines 44-79. -/
def convertAudio (p : Platform) (file : File) (w : World) : Except JsError Samples × World :=
  let w := updateStatus "Processing audio locally..." w
  let w := w.log Event.arrayBuffer
  match file.arrayBuffer with
  | Except.error e => (Except.error e, w)
  | Except.ok arrayBuffer =>
    let w := w.log Event.newAudioContext
    match p.newAudioContext with
    | Except.error e => (Except.error e, w)
    | Except.ok state =>
      let w := { w with audioContext := some state }
      let r := convertAudioTry p arrayBuffer w
      (r.1, convertAudioFinally r.2)

/-- Lines 148-151. The timer that removes the class again is recorded in the trace. -/
def showCopyFeedback (p : Platform) (w : World) : Except JsError Unit × World :=
  let w := w.log Event.showCopyFeedback
  match p.copyFeedback with
  | some e => (Except.error e, w)
  | none =>
    let w := { w with copyFeedbackShown := true }
    (Except.ok (), w.log (Event.setTimeout 2000))

/-- Lines 28-38. -/
def initTranscriber (p : Platform) (w : World) : Except JsError Transcriber × World :=
  match w.transcriber with
  | some t => (Except.ok t, w)
  | none =>
    let w := updateStatus "Loading Whisper model (this happens once)..." w
    let w := w.log (Event.pipeline "automatic-speech-recognition" MODEL_NAME)
    match p.pipeline "automatic-speech-recognition" MODEL_NAME with
    | Except.error e => (Except.error e, w)
    | Except.ok t =>
      let w := { w with transcriber := some t }
      let w := w.log (Event.consoleLog "Transcriber loaded")
      (Except.ok t, w)

/-- White space and line terminators of ECMAScript, the characters
`String.prototype.trim` removes. -/
def isJsWhiteSpace (c : Char) : Bool :=
  let n := c.toNat
  n == 0x9 || n == 0xA || n == 0xB || n == 0xC || n == 0xD || n == 0x20 || n == 0xA0
    || n == 0x1680 || (0x2000 ≤ n && n ≤ 0x200A) || n == 0x2028 || n == 0x2029
    || n == 0x202F || n == 0x205F || n == 0x3000 || n == 0xFEFF

/-- The method `String.prototype.trim`. -/
def jsTrim (s : String) : String :=
  String.mk (((s.data.dropWhile isJsWhiteSpace).reverse.dropWhile isJsWhiteSpace).reverse)

/-- Lines 109-111. -/
def transcribeOptions : TranscribeOptions :=
  { language := "english", chunk_length_s := 30, stride_length_s := 5 }

/-- Lines 124-126: the auto-copy. With `navigator.clipboard` undefined the
property read `navigator.clipboard.writeText` throws a `TypeError` in the
calling code; otherwise the promise chain `.then(showCopyFeedback).catch(...)`
absorbs a rejected write and a failing feedback step. -/
def autoCopy (p : Platform) (fullText : String) (w : World) : Except JsError Unit × World :=
  match p.clipboard with
  | none => (Except.error { message := some "navigator.clipboard is undefined" }, w)
  | some writeText =>
    let w := w.log (Event.clipboardWrite fullText)
    match writeText fullText with
    | Except.error _ => (Except.ok (), w)
    | Except.ok () => (Except.ok (), (showCopyFeedback p w).2)

/-- Lines 99-103: load the model unless one is cached. -/
def loadModelIfNeeded (p : Platform) (w : World) : Except JsError Unit × World :=
  match w.transcriber with
  | some _ => (Except.ok (), w)
  | none =>
    let r := initTranscriber p (updateStatus "Loading model..." w)
    (r.1.map (fun _ => ()), r.2)

/-- Lines 105-126: invoke the model, show the trimmed text, copy it. -/
def transcribeAndShow (p : Platform) (audioData : Samples) (w : World) :
    Except JsError Unit × World :=
  let w := updateStatus "Transcribing..." w
  match w.transcriber with
  | none => (Except.error { message := some "transcriber is not a function" }, w)
  | some t =>
    let w := w.log (Event.transcribe t transcribeOptions)
    match p.transcribe t audioData transcribeOptions with
    | Except.error e => (Except.error e, w)
    | Except.ok result =>
      let fullText := jsTrim result.text
      let w := { w with transcriptValue := fullText }
      let w := { w with statusHidden := true, dropHidden := false, outputHidden := false }
      autoCopy p fullText w

/-- Lines 96-126: the body of the `try` block of `handleFile`. -/
def handleFileTry (p : Platform) (file : File) (w : World) : Except JsError Unit × World :=
  match convertAudio p file w with
  | (Except.error e, w) => (Except.error e, w)
  | (Except.ok audioData, w) =>
    match loadModelIfNeeded p w with
    | (Except.error e, w) => (Except.error e, w)
    | (Except.ok (), w) => transcribeAndShow p audioData w

/-- Line 132: `error.message || ...`; an absent or empty message is falsy. -/
def errorText (error : JsError) : String :=
  match error.message with
  | some m => if m = "" then "An error occurred" else m
  | none => "An error occurred"

/-- Lines 128-141: the `catch` block of `handleFile`. -/
def handleFileCatch (error : JsError) (w : World) : Except JsError Unit × World :=
  let w := w.log (Event.consoleError error)
  let w := { w with statusText := errorText error }
  let w := { w with statusColor := "#ef4444" }
  let w := w.log (Event.setTimeout 4000)
  (Except.ok (), w)

/-- Lines 86-93: reset of the page before a file is processed. -/
def resetUI (w : World) : World :=
  let w := { w with outputHidden := true, dropHidden := true, statusHidden := false,
                    transcriptValue := "" }
  { w with statusColor := "var(--text-primary)" }

/-- The statement `try { body } catch (error) { handler }`: a failure of the
body runs the handler on the thrown value, in the state the body left. -/
def tryCatch (body : Except JsError Unit × World)
    (handler : JsError → World → Except JsError Unit × World) : Except JsError Unit × World :=
  match body with
  | (Except.ok (), w) => (Except.ok (), w)
  | (Except.error error, w) => handler error w

/-- Lines 83-142. The result is what the caller of `handleFile` observes:
`Except.error` would be a failure propagating out of it. -/
def handleFile (p : Platform) (file : Option File) (w : World) : Except JsError Unit × World :=
  match file with
  | none => (Except.ok (), w)
  | some file => tryCatch (handleFileTry p file (resetUI w)) handleFileCatch

/-- Calls appended to the trace between two states. -/
def emitted (w w' : World) : List Event := w'.trace.drop w.trace.length

/-- Status notifications (arguments of the calls to `updateStatus`) in a list of calls. -/
def statuses : List Event → List String
  | [] => []
  | Event.updateStatus m :: es => m :: statuses es
  | _ :: es => statuses es

/-- Whether a call is a call of the model loader `pipeline`. -/
def Event.isPipeline : Event → Bool
  | Event.pipeline _ _ => true
  | _ => false

/-- Whether a call is an invocation of the loaded model. -/
def Event.isTranscribe : Event → Bool
  | Event.transcribe _ _ => true
  | _ => false

/-- Whether a call is an evaluation of the duration guard. -/
def Event.isDurationCheck : Event → Bool
  | Event.durationCheck _ => true
  | _ => false

/-- Whether a call is the creation of the offline render target. -/
def Event.isNewOfflineContext : Event → Bool
  | Event.newOfflineContext _ => true
  | _ => false

/-- Whether a call is the `console.error` that opens the `catch` block of `handleFile`. -/
def Event.isConsoleError : Event → Bool
  | Event.consoleError _ => true
  | _ => false

/-- Number of calls of the model loader in a list of calls. -/
def loaderCalls (es : List Event) : ℕ := es.countP Event.isPipeline

/-- Number of invocations of the loaded model in a list of calls. -/
def modelCalls (es : List Event) : ℕ := es.countP Event.isTranscribe

/-- A state with an empty trace, used to read off what a function emits. -/
def blank : World :=
  { transcriber := none, statusText := "", statusColor := "", transcriptValue := "",
    outputHidden := false, dropHidden := false, statusHidden := false,
    copyFeedbackShown := false, audioContext := none, trace := [] }

/-- A dropped file whose bytes can be read. -/
def sampleFile : File := { arrayBuffer := Except.ok { bytes := [82, 73, 70, 70] } }

/-- A platform on which every step succeeds: the file decodes to stereo
44.1 kHz audio of the given duration, a render target of positive length
renders, the model loads and answers, the clipboard accepts the text. -/
def samplePlatform (duration : ℚ) : Platform :=
  { newAudioContext := Except.ok ContextState.running
    decodeAudioData := fun _ =>
      Except.ok { duration := duration, sampleRate := 44100, numberOfChannels := 2 }
    startRendering := fun req _ =>
      if req.length ≤ 0 then Except.error { message := some "NotSupportedError" }
      else Except.ok { channels := [[0, 1 / 2, 0]] }
    pipeline := fun _ _ => Except.ok { id := 1 }
    transcribe := fun _ _ _ => Except.ok { text := "  hello world \n" }
    clipboard := some (fun _ => Except.ok ())
    copyFeedback := none }

/-- The page as first loaded: no model cached, nothing emitted yet. -/
def freshWorld : World :=
  { transcriber := none, statusText := "", statusColor := "var(--text-primary)",
    transcriptValue := "", outputHidden := true, dropHidden := false, statusHidden := true,
    copyFeedbackShown := false, audioContext := none, trace := [] }

/-- The status sequence of one submission, by the path it takes. -/
def expectedStatuses (p : Platform) (file : File) (w : World) : List String :=
  match (convertAudio p file w).1 with
  | Except.error _ => ["Processing audio locally..."]
  | Except.ok _ =>
    match w.transcriber with
    | some _ => ["Processing audio locally...", "Transcribing..."]
    | none =>
      match p.pipeline "automatic-speech-recognition" MODEL_NAME with
      | Except.error _ => ["Processing audio locally...", "Loading model...",
          "Loading Whisper model (this happens once)..."]
      | Except.ok _ => ["Processing audio locally...", "Loading model...",
          "Loading Whisper model (this happens once)...", "Transcribing..."]

/-- A platform like `samplePlatform` without `navigator.clipboard` (a page
served outside a secure context). -/
def noClipboardPlatform (duration : ℚ) : Platform :=
  { samplePlatform duration with clipboard := none }

/-- A platform like `samplePlatform` on which the clipboard write is rejected. -/
def rejectedWritePlatform (duration : ℚ) : Platform :=
  { samplePlatform duration with
    clipboard := some (fun _ => Except.error { message := some "NotAllowedError" }) }

/-- A platform like `samplePlatform` on which `showCopyFeedback` throws. -/
def failingFeedbackPlatform (duration : ℚ) : Platform :=
  { samplePlatform duration with copyFeedback := some { message := some "TypeError" } }

/-! ## Frame lemmas -/

theorem emitted_append (w w' : World) (es : List Event) (h : w'.trace = w.trace ++ es) :
    emitted w w' = es := by
  simp [emitted, h]

theorem blank_trace : blank.trace = [] := rfl

theorem statuses_append (xs ys : List Event) : statuses (xs ++ ys) = statuses xs ++ statuses ys := by
  induction xs with
  | nil => rfl
  | cons x xs ih => cases x <;> simp [statuses, ih]

theorem convertAudioTry_frame (p : Platform) (buf : ArrayBuffer) (w : World) :
    convertAudioTry p buf w = ((convertAudioTry p buf blank).1,
      { w with trace := w.trace ++ (convertAudioTry p buf blank).2.trace }) := by
  unfold convertAudioTry
  rcases h1 : p.decodeAudioData buf with e | b
  · simp [World.log, blank]
  · rcases h2 : checkDuration b.duration with e | u
    · simp [World.log, blank, h2]
    · rcases h3 : p.startRendering (offlineRequest b) b with e | rb
      · simp [World.log, blank, h2, h3]
      · simp [World.log, blank, h2, h3]

theorem convertAudio_frame (p : Platform) (file : File) (w : World) :
    convertAudio p file w = ((convertAudio p file blank).1,
      { w with statusText := "Processing audio locally...",
               audioContext := (match file.arrayBuffer, p.newAudioContext with
                 | Except.ok _, Except.ok _ => some ContextState.closed
                 | _, _ => w.audioContext),
               trace := w.trace ++ (convertAudio p file blank).2.trace }) := by
  unfold convertAudio
  rcases h1 : file.arrayBuffer with e | buf
  · simp [World.log, blank, updateStatus]
  · rcases h2 : p.newAudioContext with e | s
    · simp [World.log, blank, updateStatus]
    · simp only []
      rw [convertAudioTry_frame]
      conv => rhs; rw [convertAudioTry_frame]
      cases s <;> simp [World.log, blank, updateStatus, convertAudioFinally]

/-- What `convertAudioTry` emits: no status, loader, model or close call. -/
theorem convertAudioTry_events (p : Platform) (buf : ArrayBuffer) :
    statuses (convertAudioTry p buf blank).2.trace = [] ∧
    loaderCalls (convertAudioTry p buf blank).2.trace = 0 ∧
    modelCalls (convertAudioTry p buf blank).2.trace = 0 ∧
    (convertAudioTry p buf blank).2.trace.count Event.close = 0 := by
  unfold convertAudioTry
  rcases h1 : p.decodeAudioData buf with e | b
  · simp [World.log, blank, statuses, loaderCalls, modelCalls, Event.isPipeline, Event.isTranscribe]
  · rcases h2 : checkDuration b.duration with e | u
    · simp [World.log, blank, h2, statuses, loaderCalls, modelCalls, Event.isPipeline, Event.isTranscribe]
    · rcases h3 : p.startRendering (offlineRequest b) b with e | rb
      · simp [World.log, blank, h2, h3, statuses, loaderCalls, modelCalls, Event.isPipeline, Event.isTranscribe]
      · simp [World.log, blank, h2, h3, statuses, loaderCalls, modelCalls, Event.isPipeline, Event.isTranscribe]

theorem convertAudio_events (p : Platform) (file : File) :
    statuses (convertAudio p file blank).2.trace = ["Processing audio locally..."] ∧
    loaderCalls (convertAudio p file blank).2.trace = 0 ∧
    modelCalls (convertAudio p file blank).2.trace = 0 := by
  unfold convertAudio
  rcases h1 : file.arrayBuffer with e | buf
  · simp [World.log, blank, updateStatus, statuses, loaderCalls, modelCalls, Event.isPipeline, Event.isTranscribe]
  · rcases h2 : p.newAudioContext with e | s
    · simp [World.log, blank, updateStatus, statuses, loaderCalls, modelCalls, Event.isPipeline, Event.isTranscribe]
    · simp only []
      rw [convertAudioTry_frame]
      obtain ⟨a, b, c, _⟩ := convertAudioTry_events p buf
      simp only [loaderCalls, modelCalls] at b c ⊢
      cases s <;>
        simp [World.log, blank_trace, updateStatus, convertAudioFinally, statuses, statuses_append,
          List.countP_append, List.countP_cons, Event.isPipeline, Event.isTranscribe, a, b, c]

/-! ## Conversion -/

theorem checkDuration_ok_iff (d : ℚ) : checkDuration d = Except.ok () ↔ d ≤ 120 := by
  unfold checkDuration MAX_DURATION_SEC
  split <;> simp_all

theorem checkDuration_error_iff (d : ℚ) :
    checkDuration d = Except.error (tooLongError d) ↔ 120 < d := by
  unfold checkDuration MAX_DURATION_SEC
  split <;> simp_all

theorem tooLongError_message (d : ℚ) :
    tooLongError d = { message := some ("Audio too long (" ++ toString (⌊d + 1 / 2⌋ : ℤ)
      ++ "s). Limit is 120s.") } := by
  have h : numberToString MAX_DURATION_SEC = "120" := by decide
  have h2 : "s). Limit is " ++ "120" ++ "s." = "s). Limit is 120s." := by decide
  simp only [tooLongError, mathRound, numberToString] at *
  rw [h, ← h2]
  simp [String.append_assoc]

theorem offlineRequest_eq (b : DecodedBuffer) :
    offlineRequest b = { numberOfChannels := 1, length := ⌈b.duration * 16000⌉, sampleRate := 16000 } := by
  simp [offlineRequest, mathCeil]

/-- Claim C1: the duration guard inside `convertAudio` (lines 57-59) accepts a
decoded duration `d` exactly when `d ≤ 120`, and throws the too-long error
exactly when `120 < d`; `d = 120` is accepted and `d = 120.0001` is rejected. -/
theorem checkDuration_accepts_iff_le_limit :
    (∀ d : ℚ, checkDuration d = Except.ok () ↔ d ≤ 120) ∧
    (∀ d : ℚ, checkDuration d = Except.error (tooLongError d) ↔ 120 < d) ∧
    checkDuration 120 = Except.ok () ∧
    checkDuration (1200001 / 10000) = Except.error (tooLongError (1200001 / 10000)) := by
  refine ⟨checkDuration_ok_iff, checkDuration_error_iff, ?_, ?_⟩
  · rw [checkDuration_ok_iff]
  · rw [checkDuration_error_iff]; norm_num

/-- Claim C4: when the file is read, the context is created and the decoded
duration `d` exceeds 120, `convertAudio` fails with the message
"Audio too long (N s). Limit is 120s." (no blank before the first `s`) where
`N` is `d` rounded to the nearest integer, halves up; for `d = 130` the
message is "Audio too long (130s). Limit is 120s.". -/
theorem convertAudio_too_long_message (p : Platform) (file : File) (w : World)
    (buf : ArrayBuffer) (s : ContextState) (b : DecodedBuffer)
    (hread : file.arrayBuffer = Except.ok buf) (hctx : p.newAudioContext = Except.ok s)
    (hdec : p.decodeAudioData buf = Except.ok b) (hlong : 120 < b.duration) :
    (convertAudio p file w).1 = Except.error { message := some ("Audio too long ("
      ++ toString (⌊b.duration + 1 / 2⌋ : ℤ) ++ "s). Limit is 120s.") } ∧
    (b.duration = 130 → (convertAudio p file w).1
      = Except.error { message := some "Audio too long (130s). Limit is 120s." }) := by
  have hchk : checkDuration b.duration = Except.error (tooLongError b.duration) :=
    (checkDuration_error_iff b.duration).2 hlong
  have hout : (convertAudio p file w).1 = Except.error (tooLongError b.duration) := by
    simp [convertAudio, convertAudioTry, hread, hctx, hdec, hchk]
  refine ⟨by rw [hout, tooLongError_message], ?_⟩
  intro h130
  rw [hout, tooLongError_message, h130]
  have h1 : ⌊(130 : ℚ) + 1 / 2⌋ = 130 := by rw [Int.floor_eq_iff]; norm_num
  have h2 : "Audio too long (" ++ toString (130 : ℤ) ++ "s). Limit is 120s."
      = "Audio too long (130s). Limit is 120s." := by decide
  rw [h1, h2]

theorem convertAudio_too_long_message_witness :
    (convertAudio (samplePlatform 130) sampleFile freshWorld).1
      = Except.error { message := some "Audio too long (130s). Limit is 120s." } :=
  (convertAudio_too_long_message (samplePlatform 130) sampleFile freshWorld
    { bytes := [82, 73, 70, 70] } ContextState.running
    { duration := 130, sampleRate := 44100, numberOfChannels := 2 } rfl rfl rfl
    (by norm_num)).2 rfl

theorem sample_convert_emitted (d : ℚ) (hd : d ≤ 120) :
    emitted freshWorld (convertAudio (samplePlatform d) sampleFile freshWorld).2
      = [Event.updateStatus "Processing audio locally...", Event.arrayBuffer,
          Event.newAudioContext, Event.decodeAudioData { bytes := [82, 73, 70, 70] },
          Event.durationCheck d,
          Event.newOfflineContext
            { numberOfChannels := 1, length := ⌈d * 16000⌉, sampleRate := 16000 },
          Event.startRendering, Event.close] := by
  have hchk : checkDuration d = Except.ok () := (checkDuration_ok_iff d).2 hd
  apply emitted_append
  simp only [convertAudio, convertAudioTry, sampleFile, samplePlatform, hchk, offlineRequest_eq]
  split <;> simp [convertAudioFinally, updateStatus, World.log, freshWorld]

/-- Claim C5, counterexample: a file decoded to a duration of 0 reaches the
resampling step (the offline render target is created, with length 0),
although `0 < d` fails. -/
theorem resampling_reached_at_zero_duration :
    (samplePlatform 0).decodeAudioData { bytes := [82, 73, 70, 70] }
      = Except.ok { duration := 0, sampleRate := 44100, numberOfChannels := 2 } ∧
    Event.newOfflineContext { numberOfChannels := 1, length := 0, sampleRate := 16000 }
      ∈ emitted freshWorld (convertAudio (samplePlatform 0) sampleFile freshWorld).2 ∧
    ¬ (0 < (0 : ℚ) ∧ (0 : ℚ) ≤ 120) := by
  refine ⟨rfl, ?_, by norm_num⟩
  rw [sample_convert_emitted 0 (by norm_num)]
  simp

/-- Claim C5, amended: whenever `convertAudio` reaches the resampling step
(creates the offline render target), the file was decoded and the decoded
duration `d` satisfies `d ≤ 120`; the arguments are those computed from `d`. -/
theorem resampling_reached_only_within_limit (p : Platform) (file : File) (w : World)
    (req : OfflineRequest)
    (h : Event.newOfflineContext req ∈ emitted w (convertAudio p file w).2) :
    ∃ buf b, file.arrayBuffer = Except.ok buf ∧ p.decodeAudioData buf = Except.ok b ∧
      b.duration ≤ 120 ∧
      req = { numberOfChannels := 1, length := ⌈b.duration * 16000⌉, sampleRate := 16000 } := by
  rw [convertAudio_frame, emitted_append _ _ _ rfl] at h
  rcases h1 : file.arrayBuffer with e | buf
  · simp [convertAudio, h1, updateStatus, World.log, blank] at h
  · rcases h2 : p.newAudioContext with e | s
    · simp [convertAudio, h1, h2, updateStatus, World.log, blank] at h
    · rcases h3 : p.decodeAudioData buf with e | b
      · cases s <;>
          simp [convertAudio, convertAudioTry, convertAudioFinally, h1, h2, h3, updateStatus,
            World.log, blank] at h
      · rcases h4 : checkDuration b.duration with e | u
        · cases s <;>
            simp [convertAudio, convertAudioTry, convertAudioFinally, h1, h2, h3, h4,
              updateStatus, World.log, blank] at h
        · refine ⟨buf, b, rfl, h3, (checkDuration_ok_iff b.duration).1 h4, ?_⟩
          rw [← offlineRequest_eq]
          rcases h5 : p.startRendering (offlineRequest b) b with e | rb <;> cases s <;>
            simp [convertAudio, convertAudioTry, convertAudioFinally, h1, h2, h3, h4, h5,
              updateStatus, World.log, blank] at h <;> exact h

theorem resampling_reached_only_within_limit_witness :
    ∃ buf b, sampleFile.arrayBuffer = Except.ok buf ∧
      (samplePlatform 10).decodeAudioData buf = Except.ok b ∧ b.duration ≤ 120 ∧
      ({ numberOfChannels := 1, length := ⌈(10 : ℚ) * 16000⌉, sampleRate := 16000 } : OfflineRequest)
        = { numberOfChannels := 1, length := ⌈b.duration * 16000⌉, sampleRate := 16000 } :=
  resampling_reached_only_within_limit (samplePlatform 10) sampleFile freshWorld
    { numberOfChannels := 1, length := ⌈(10 : ℚ) * 16000⌉, sampleRate := 16000 }
    (by rw [sample_convert_emitted 10 (by norm_num)]; simp)

/-- Claim C9: once the native context has been created, whatever the `try`
block does (decode failure, duration exceeded, render failure, success), the
context is closed when `convertAudio` finishes; `close` is called once, as the
last call, unless the context already reports `closed`, and never inside the
`try` block; and the caller observes the outcome of the `try` block. -/
theorem convertAudio_closes_context (p : Platform) (file : File) (w : World)
    (buf : ArrayBuffer) (s : ContextState)
    (hread : file.arrayBuffer = Except.ok buf) (hctx : p.newAudioContext = Except.ok s) :
    (convertAudio p file w).2.audioContext = some ContextState.closed ∧
    emitted w (convertAudio p file w).2
      = [Event.updateStatus "Processing audio locally...", Event.arrayBuffer,
          Event.newAudioContext]
        ++ emitted blank (convertAudioTry p buf blank).2
        ++ (if s = ContextState.closed then [] else [Event.close]) ∧
    (emitted blank (convertAudioTry p buf blank).2).count Event.close = 0 ∧
    (∀ w' : World, (convertAudio p file w).1 = (convertAudioTry p buf w').1) := by
  have hem : emitted blank (convertAudioTry p buf blank).2 = (convertAudioTry p buf blank).2.trace :=
    emitted_append _ _ _ (by simp [blank_trace])
  refine ⟨?_, ?_, ?_, ?_⟩
  · rw [convertAudio_frame]; simp [hread, hctx]
  · rw [hem]
    apply emitted_append
    simp only [convertAudio, hread, hctx]
    rw [convertAudioTry_frame]
    cases s <;> simp [convertAudioFinally, updateStatus, World.log]
  · rw [hem]; exact (convertAudioTry_events p buf).2.2.2
  · intro w'
    simp only [convertAudio, hread, hctx]
    rw [convertAudioTry_frame, convertAudioTry_frame p buf w']

theorem convertAudio_closes_context_witness :
    (convertAudio (samplePlatform 130) sampleFile freshWorld).2.audioContext
      = some ContextState.closed :=
  (convertAudio_closes_context (samplePlatform 130) sampleFile freshWorld
    { bytes := [82, 73, 70, 70] } ContextState.running rfl rfl).1

/-! ## Workflow -/

theorem resetUI_trace (w : World) : (resetUI w).trace = w.trace := rfl

theorem resetUI_transcriber (w : World) : (resetUI w).transcriber = w.transcriber := rfl

/-- What `transcribeAndShow` emits and leaves unchanged. -/
theorem transcribeAndShow_summary (p : Platform) (a : Samples) (w : World) :
    (transcribeAndShow p a w).2.trace = w.trace ++ emitted w (transcribeAndShow p a w).2 ∧
    statuses (emitted w (transcribeAndShow p a w).2) = ["Transcribing..."] ∧
    loaderCalls (emitted w (transcribeAndShow p a w).2) = 0 ∧
    (transcribeAndShow p a w).2.transcriber = w.transcriber := by
  unfold transcribeAndShow
  rcases hw : w.transcriber with _ | t
  · simp [emitted, statuses, loaderCalls, updateStatus, World.log, hw, Event.isPipeline]
  · rcases ht : p.transcribe t a transcribeOptions with e | result
    · simp [emitted, statuses, loaderCalls, updateStatus, World.log, hw, ht, Event.isPipeline]
    · unfold autoCopy
      rcases hc : p.clipboard with _ | writeText
      · simp [emitted, statuses, loaderCalls, updateStatus, World.log, hw, ht, hc, Event.isPipeline]
      · rcases hwr : writeText (jsTrim result.text) with e | u
        · simp [emitted, statuses, loaderCalls, updateStatus, World.log, hw, ht, hc, hwr,
            Event.isPipeline]
        · unfold showCopyFeedback
          rcases hf : p.copyFeedback with _ | e <;>
            simp [emitted, statuses, loaderCalls, updateStatus, World.log, hw, ht, hc, hwr, hf,
              Event.isPipeline]

/-- The `catch` block adds no status, loader or model call and keeps the cache. -/
theorem tryCatch_summary (r : Except JsError Unit × World) :
    (tryCatch r handleFileCatch).1 = Except.ok () ∧
    ∃ tail, (tryCatch r handleFileCatch).2.trace = r.2.trace ++ tail ∧
      statuses tail = [] ∧ loaderCalls tail = 0 ∧ modelCalls tail = 0 ∧
      (tryCatch r handleFileCatch).2.transcriber = r.2.transcriber ∧
      (tryCatch r handleFileCatch).2.transcriptValue = r.2.transcriptValue := by
  rcases r with ⟨o, w⟩
  cases o with
  | ok u => exact ⟨rfl, [], by simp [tryCatch], rfl, rfl, rfl, rfl, rfl⟩
  | error e =>
    exact ⟨rfl, [Event.consoleError e, Event.setTimeout 4000],
      by simp [tryCatch, handleFileCatch, World.log], rfl, rfl, rfl, rfl, rfl⟩

theorem handleFileTry_convert_error (p : Platform) (file : File) (w : World) (e : JsError)
    (h : (convertAudio p file w).1 = Except.error e) :
    handleFileTry p file w = (Except.error e, (convertAudio p file w).2) := by
  unfold handleFileTry
  rcases hc : convertAudio p file w with ⟨o, w2⟩
  rw [hc] at h
  simp only at h
  subst h
  rfl

theorem transcribeAndShow_after (p : Platform) (a : Samples) (W w : World) (pre : List Event)
    (hW : W.trace = w.trace ++ pre) :
    ∃ es, (transcribeAndShow p a W).2.trace = w.trace ++ es ∧
      statuses es = statuses pre ++ ["Transcribing..."] ∧
      loaderCalls es = loaderCalls pre ∧
      (transcribeAndShow p a W).2.transcriber = W.transcriber := by
  obtain ⟨h1, h2, h3, h4⟩ := transcribeAndShow_summary p a W
  refine ⟨pre ++ emitted W (transcribeAndShow p a W).2, ?_, ?_, ?_, h4⟩
  · rw [h1, hW, List.append_assoc]
  · rw [statuses_append, h2]
  · simp only [loaderCalls, List.countP_append] at h3 ⊢
    omega

theorem handleFileTry_summary (p : Platform) (file : File) (w : World) :
    ∃ es, (handleFileTry p file w).2.trace = w.trace ++ es ∧
      statuses es = expectedStatuses p file w ∧
      loaderCalls es = (match (convertAudio p file w).1, w.transcriber with
        | Except.ok _, none => 1
        | _, _ => 0) ∧
      (handleFileTry p file w).2.transcriber
        = (match (convertAudio p file w).1, w.transcriber,
              p.pipeline "automatic-speech-recognition" MODEL_NAME with
           | Except.ok _, none, Except.ok t => some t
           | _, _, _ => w.transcriber) := by
  have hfr := convertAudio_frame p file w
  obtain ⟨hs, hl, _⟩ := convertAudio_events p file
  have htr : (convertAudio p file w).2.trace = w.trace ++ (convertAudio p file blank).2.trace := by
    rw [hfr]
  have hcache : (convertAudio p file w).2.transcriber = w.transcriber := by rw [hfr]
  rcases hc : (convertAudio p file w).1 with e | a
  · rw [handleFileTry_convert_error p file w e hc]
    exact ⟨_, htr, by simp [expectedStatuses, hc, hs], by simp [hl], by simp [hcache]⟩
  · have hpair : convertAudio p file w = (Except.ok a, (convertAudio p file w).2) := by
      rw [← hc]
    unfold handleFileTry
    rw [hpair]
    simp only []
    rcases hw : w.transcriber with _ | t
    · rcases hp : p.pipeline "automatic-speech-recognition" MODEL_NAME with e | t
      · unfold loadModelIfNeeded initTranscriber
        refine ⟨(convertAudio p file blank).2.trace ++ [Event.updateStatus "Loading model...",
          Event.updateStatus "Loading Whisper model (this happens once)...",
          Event.pipeline "automatic-speech-recognition" MODEL_NAME], ?_, ?_, ?_, ?_⟩
        · simp [hcache, hw, hp, updateStatus, World.log, htr, Except.map]
        · simp [expectedStatuses, hc, hw, hp, statuses_append, hs, statuses]
        · simp [loaderCalls, List.countP_append, Event.isPipeline] ; simpa [loaderCalls] using hl
        · simp [hcache, hw, hp, updateStatus, World.log, Except.map]
      · have hload : loadModelIfNeeded p (convertAudio p file w).2 = (Except.ok (),
            { (convertAudio p file w).2 with
              transcriber := some t,
              statusText := "Loading Whisper model (this happens once)...",
              trace := (convertAudio p file w).2.trace ++ [Event.updateStatus "Loading model...",
                Event.updateStatus "Loading Whisper model (this happens once)...",
                Event.pipeline "automatic-speech-recognition" MODEL_NAME,
                Event.consoleLog "Transcriber loaded"] }) := by
          simp [loadModelIfNeeded, initTranscriber, hcache, hw, hp, updateStatus, World.log,
            Except.map]
        rw [hload]
        simp only []
        obtain ⟨es, h1, h2, h3, h4⟩ := transcribeAndShow_after p a
          { (convertAudio p file w).2 with
              transcriber := some t,
              statusText := "Loading Whisper model (this happens once)...",
              trace := (convertAudio p file w).2.trace ++ [Event.updateStatus "Loading model...",
                Event.updateStatus "Loading Whisper model (this happens once)...",
                Event.pipeline "automatic-speech-recognition" MODEL_NAME,
                Event.consoleLog "Transcriber loaded"] } w
          ((convertAudio p file blank).2.trace ++ [Event.updateStatus "Loading model...",
                Event.updateStatus "Loading Whisper model (this happens once)...",
                Event.pipeline "automatic-speech-recognition" MODEL_NAME,
                Event.consoleLog "Transcriber loaded"]) (by simp [htr])
        refine ⟨es, h1, ?_, ?_, ?_⟩
        · rw [h2]; simp [expectedStatuses, hc, hw, hp, statuses_append, hs, statuses]
        · rw [h3]
          simp only [loaderCalls, List.countP_append] at hl ⊢
          simp [hl, Event.isPipeline]
        · rw [h4]
    · have hload : loadModelIfNeeded p (convertAudio p file w).2
          = (Except.ok (), (convertAudio p file w).2) := by
        simp [loadModelIfNeeded, hcache, hw]
      rw [hload]
      simp only []
      obtain ⟨es, h1, h2, h3, h4⟩ := transcribeAndShow_after p a (convertAudio p file w).2 w
        (convertAudio p file blank).2.trace htr
      refine ⟨es, h1, ?_, ?_, ?_⟩
      · rw [h2]; simp [expectedStatuses, hc, hw, hs]
      · rw [h3]; simp [hl]
      · rw [h4, hcache, hw]

theorem convertAudio_fst_indep (p : Platform) (file : File) (w w' : World) :
    (convertAudio p file w).1 = (convertAudio p file w').1 := by
  rw [convertAudio_frame p file w, convertAudio_frame p file w']

theorem expectedStatuses_resetUI (p : Platform) (file : File) (w : World) :
    expectedStatuses p file (resetUI w) = expectedStatuses p file w := by
  simp only [expectedStatuses, resetUI_transcriber, convertAudio_fst_indep p file (resetUI w) w]

/-- One submission: what it emits, and what it does to the cache. -/
theorem handleFile_summary (p : Platform) (file : File) (w : World) :
    ∃ es, (handleFile p (some file) w).2.trace = w.trace ++ es ∧
      statuses es = expectedStatuses p file w ∧
      loaderCalls es = (match (convertAudio p file w).1, w.transcriber with
        | Except.ok _, none => 1
        | _, _ => 0) ∧
      (handleFile p (some file) w).2.transcriber
        = (match (convertAudio p file w).1, w.transcriber,
              p.pipeline "automatic-speech-recognition" MODEL_NAME with
           | Except.ok _, none, Except.ok t => some t
           | _, _, _ => w.transcriber) := by
  obtain ⟨es, h1, h2, h3, h4⟩ := handleFileTry_summary p file (resetUI w)
  obtain ⟨_, tail, t1, t2, t3, _, t5, _⟩ := tryCatch_summary (handleFileTry p file (resetUI w))
  rw [expectedStatuses_resetUI] at h2
  rw [resetUI_transcriber, convertAudio_fst_indep p file (resetUI w) w] at h3 h4
  rw [resetUI_trace] at h1
  refine ⟨es ++ tail, ?_, ?_, ?_, ?_⟩
  · simp only [handleFile]; rw [t1, h1, List.append_assoc]
  · rw [statuses_append, t2, h2, List.append_nil]
  · simp only [loaderCalls, List.countP_append] at t3 h3 ⊢
    rw [t3, h3]; rfl
  · simp only [handleFile]; rw [t5, h4]

theorem convertAudio_transcriber (p : Platform) (file : File) (w : World) :
    (convertAudio p file w).2.transcriber = w.transcriber := by
  rw [convertAudio_frame]

theorem convertAudio_transcriptValue (p : Platform) (file : File) (w : World) :
    (convertAudio p file w).2.transcriptValue = w.transcriptValue := by
  rw [convertAudio_frame]

theorem handleFileTry_convert_ok (p : Platform) (file : File) (w : World) (a : Samples)
    (h : (convertAudio p file w).1 = Except.ok a) :
    handleFileTry p file w
      = (match loadModelIfNeeded p (convertAudio p file w).2 with
         | (Except.error e, w) => (Except.error e, w)
         | (Except.ok (), w) => transcribeAndShow p a w) := by
  unfold handleFileTry
  rcases hc : convertAudio p file w with ⟨o, w2⟩
  rw [hc] at h
  simp only at h
  subst h
  rfl

theorem sample_convert_ok (P : Platform) (d : ℚ) (w : World) (hpos : 0 < d) (hle : d ≤ 120)
    (h1 : P.newAudioContext = Except.ok ContextState.running)
    (h2 : P.decodeAudioData = (samplePlatform d).decodeAudioData)
    (h3 : P.startRendering = (samplePlatform d).startRendering) :
    (convertAudio P sampleFile w).1 = Except.ok [0, 1 / 2, 0] := by
  have hchk : checkDuration d = Except.ok () := (checkDuration_ok_iff d).2 hle
  have hlen : ¬ ⌈d * 16000⌉ ≤ 0 := by
    have : 0 < ⌈d * 16000⌉ := Int.ceil_pos.2 (by positivity)
    omega
  simp [convertAudio, convertAudioTry, sampleFile, h1, h2, h3, samplePlatform, hchk,
    offlineRequest_eq, hlen, getChannelData]

/-- Claim C8, counterexample: on the first submission of a session, with every
step succeeding, four status notifications are emitted, two of them for
loading; the claimed sequence has three. -/
theorem first_submission_emits_two_loading_statuses :
    statuses (emitted freshWorld (handleFile (samplePlatform 10) (some sampleFile) freshWorld).2)
      = ["Processing audio locally...", "Loading model...",
          "Loading Whisper model (this happens once)...", "Transcribing..."] ∧
    statuses (emitted freshWorld (handleFile (samplePlatform 10) (some sampleFile) freshWorld).2)
      ≠ ["Processing audio locally...", "Loading model...", "Transcribing..."] := by
  obtain ⟨es, h1, h2, _⟩ := handleFile_summary (samplePlatform 10) sampleFile freshWorld
  have hc := sample_convert_ok (samplePlatform 10) 10 freshWorld (by norm_num) (by norm_num)
    rfl rfl rfl
  have hexp : expectedStatuses (samplePlatform 10) sampleFile freshWorld
      = ["Processing audio locally...", "Loading model...",
          "Loading Whisper model (this happens once)...", "Transcribing..."] := by
    simp only [expectedStatuses, hc]
    rfl
  rw [emitted_append _ _ es h1, h2, hexp]
  exact ⟨rfl, by decide⟩

/-- Claim C8, amended: the status notifications of one submission are
"Processing audio locally...", then, exactly when no model is cached,
"Loading model..." followed by "Loading Whisper model (this happens once)...",
then "Transcribing...", cut at the first failing step (a failing conversion
leaves the first one, a failing load the first three). -/
theorem handleFile_status_sequence (p : Platform) (file : File) (w : World) :
    statuses (emitted w (handleFile p (some file) w).2)
      = (match (convertAudio p file w).1 with
         | Except.error _ => ["Processing audio locally..."]
         | Except.ok _ =>
           match w.transcriber with
           | some _ => ["Processing audio locally...", "Transcribing..."]
           | none =>
             match p.pipeline "automatic-speech-recognition" MODEL_NAME with
             | Except.error _ => ["Processing audio locally...", "Loading model...",
                 "Loading Whisper model (this happens once)..."]
             | Except.ok _ => ["Processing audio locally...", "Loading model...",
                 "Loading Whisper model (this happens once)...", "Transcribing..."]) := by
  obtain ⟨es, h1, h2, _⟩ := handleFile_summary p file w
  rw [emitted_append _ _ es h1, h2]
  rfl

theorem sample_convert_too_long (d : ℚ) (w : World) (h : 120 < d) :
    (convertAudio (samplePlatform d) sampleFile w).1 = Except.error (tooLongError d) := by
  have hchk := (checkDuration_error_iff d).2 h
  simp [convertAudio, convertAudioTry, sampleFile, samplePlatform, hchk]

theorem handleFile_convert_error (p : Platform) (file : File) (w : World) (e : JsError)
    (h : (convertAudio p file w).1 = Except.error e) :
    handleFile p (some file) w = handleFileCatch e (convertAudio p file (resetUI w)).2 := by
  have h' : (convertAudio p file (resetUI w)).1 = Except.error e := by
    rw [convertAudio_fst_indep p file (resetUI w) w, h]
  simp only [handleFile]
  rw [handleFileTry_convert_error p file (resetUI w) e h']
  rfl

theorem decode_error_no_durationCheck (p : Platform) (file : File) (buf : ArrayBuffer)
    (e : JsError) (hread : file.arrayBuffer = Except.ok buf)
    (hdec : p.decodeAudioData buf = Except.error e) :
    (convertAudio p file blank).2.trace.countP Event.isDurationCheck = 0 := by
  rcases hctx : p.newAudioContext with e' | s
  · simp [convertAudio, hread, hctx, updateStatus, World.log, blank, Event.isDurationCheck]
  · cases s <;>
      simp [convertAudio, convertAudioTry, convertAudioFinally, hread, hctx, hdec, updateStatus,
        World.log, blank, Event.isDurationCheck]

/-- Claim C10: when `convertAudio` fails, `handleFile` does nothing more than
run its `catch` block: what it emits is what `convertAudio` emitted followed
by `console.error` and the reset timer, so neither the loader nor the model is
invoked, and the transcript output stays empty; when the failure is a decode
failure, the duration guard is never evaluated. -/
theorem convert_failure_stops_workflow (p : Platform) (file : File) (w : World) (e : JsError)
    (h : (convertAudio p file w).1 = Except.error e) :
    emitted w (handleFile p (some file) w).2
      = emitted w (convertAudio p file w).2 ++ [Event.consoleError e, Event.setTimeout 4000] ∧
    loaderCalls (emitted w (handleFile p (some file) w).2) = 0 ∧
    modelCalls (emitted w (handleFile p (some file) w).2) = 0 ∧
    (handleFile p (some file) w).2.transcriptValue = "" ∧
    (∀ (buf : ArrayBuffer) (e' : JsError), file.arrayBuffer = Except.ok buf →
      p.decodeAudioData buf = Except.error e' →
      (emitted w (handleFile p (some file) w).2).countP Event.isDurationCheck = 0) := by
  obtain ⟨_, hl, hm⟩ := convertAudio_events p file
  have hconv : emitted w (convertAudio p file w).2 = (convertAudio p file blank).2.trace :=
    emitted_append _ _ _ (by rw [convertAudio_frame])
  have hem : emitted w (handleFile p (some file) w).2
      = (convertAudio p file blank).2.trace ++ [Event.consoleError e, Event.setTimeout 4000] := by
    apply emitted_append
    rw [handleFile_convert_error p file w e h, convertAudio_frame]
    simp [handleFileCatch, World.log, resetUI_trace]
  refine ⟨by rw [hem, hconv], ?_, ?_, ?_, ?_⟩
  · rw [hem]
    simp only [loaderCalls, List.countP_append] at hl ⊢
    rw [hl]; rfl
  · rw [hem]
    simp only [modelCalls, List.countP_append] at hm ⊢
    rw [hm]; rfl
  · rw [handleFile_convert_error p file w e h]
    show (convertAudio p file (resetUI w)).2.transcriptValue = ""
    rw [convertAudio_transcriptValue]
    rfl
  · intro buf e' hread hdec
    rw [hem, List.countP_append, decode_error_no_durationCheck p file buf e' hread hdec]
    rfl

theorem convert_failure_stops_workflow_witness :
    loaderCalls (emitted freshWorld
      (handleFile (samplePlatform 130) (some sampleFile) freshWorld).2) = 0 ∧
    modelCalls (emitted freshWorld
      (handleFile (samplePlatform 130) (some sampleFile) freshWorld).2) = 0 ∧
    (handleFile (samplePlatform 130) (some sampleFile) freshWorld).2.transcriptValue = "" :=
  have h := convert_failure_stops_workflow (samplePlatform 130) sampleFile freshWorld
    (tooLongError 130) (sample_convert_too_long 130 freshWorld (by norm_num))
  ⟨h.2.1, h.2.2.1, h.2.2.2.1⟩

theorem handleFileTry_fresh_load_ok (p : Platform) (file : File) (w : World) (a : Samples)
    (t : Transcriber) (hconv : (convertAudio p file w).1 = Except.ok a)
    (hw : w.transcriber = none)
    (hp : p.pipeline "automatic-speech-recognition" MODEL_NAME = Except.ok t) :
    handleFileTry p file w = transcribeAndShow p a
      { (convertAudio p file w).2 with
        transcriber := some t,
        statusText := "Loading Whisper model (this happens once)...",
        trace := (convertAudio p file w).2.trace ++ [Event.updateStatus "Loading model...",
          Event.updateStatus "Loading Whisper model (this happens once)...",
          Event.pipeline "automatic-speech-recognition" MODEL_NAME,
          Event.consoleLog "Transcriber loaded"] } := by
  have hcache : (convertAudio p file w).2.transcriber = none := by
    rw [convertAudio_transcriber, hw]
  rw [handleFileTry_convert_ok p file w a hconv]
  simp [loadModelIfNeeded, initTranscriber, hcache, hp, updateStatus, World.log, Except.map]

theorem sample_trim : jsTrim "  hello world \n" = "hello world" := by decide

/-- Claim C7, evaluated: on a platform without `navigator.clipboard`, with
conversion, load and inference succeeding, the `try` block of `handleFile`
fails at the auto-copy and the `catch` block runs (`console.error`, status text
set to the message, error colour), the status container staying hidden and the
transcript staying the trimmed text; a rejected write and a failing
`showCopyFeedback` do not fail the `try` block. -/
theorem absent_clipboard_runs_error_branch :
    (handleFileTry (noClipboardPlatform 10) sampleFile (resetUI freshWorld)).1
      = Except.error { message := some "navigator.clipboard is undefined" } ∧
    Event.consoleError { message := some "navigator.clipboard is undefined" }
      ∈ emitted freshWorld (handleFile (noClipboardPlatform 10) (some sampleFile) freshWorld).2 ∧
    (handleFile (noClipboardPlatform 10) (some sampleFile) freshWorld).2.statusText
      = "navigator.clipboard is undefined" ∧
    (handleFile (noClipboardPlatform 10) (some sampleFile) freshWorld).2.statusColor
      = "#ef4444" ∧
    (handleFile (noClipboardPlatform 10) (some sampleFile) freshWorld).2.statusHidden
      = true ∧
    (handleFile (noClipboardPlatform 10) (some sampleFile) freshWorld).2.transcriptValue
      = "hello world" ∧
    (handleFileTry (rejectedWritePlatform 10) sampleFile (resetUI freshWorld)).1
      = Except.ok () ∧
    (handleFileTry (failingFeedbackPlatform 10) sampleFile (resetUI freshWorld)).1
      = Except.ok () := by
  have h1 := handleFileTry_fresh_load_ok (noClipboardPlatform 10) sampleFile (resetUI freshWorld)
    [0, 1 / 2, 0] { id := 1 }
    (sample_convert_ok _ 10 _ (by norm_num) (by norm_num) rfl rfl rfl) rfl rfl
  have h2 := handleFileTry_fresh_load_ok (rejectedWritePlatform 10) sampleFile
    (resetUI freshWorld) [0, 1 / 2, 0] { id := 1 }
    (sample_convert_ok _ 10 _ (by norm_num) (by norm_num) rfl rfl rfl) rfl rfl
  have h3 := handleFileTry_fresh_load_ok (failingFeedbackPlatform 10) sampleFile
    (resetUI freshWorld) [0, 1 / 2, 0] { id := 1 }
    (sample_convert_ok _ 10 _ (by norm_num) (by norm_num) rfl rfl rfl) rfl rfl
  refine ⟨?_, ?_, ?_, ?_, ?_, ?_, ?_, ?_⟩
  · rw [h1]
    simp [transcribeAndShow, autoCopy, updateStatus, World.log, noClipboardPlatform,
      samplePlatform]
  · simp only [handleFile]
    rw [h1]
    simp [transcribeAndShow, autoCopy, updateStatus, World.log, noClipboardPlatform,
      samplePlatform, tryCatch, handleFileCatch, emitted, freshWorld]
  · simp only [handleFile]
    rw [h1]
    simp [transcribeAndShow, autoCopy, updateStatus, World.log, noClipboardPlatform,
      samplePlatform, tryCatch, handleFileCatch, errorText]
  · simp only [handleFile]
    rw [h1]
    simp [transcribeAndShow, autoCopy, updateStatus, World.log, noClipboardPlatform,
      samplePlatform, tryCatch, handleFileCatch]
  · simp only [handleFile]
    rw [h1]
    simp [transcribeAndShow, autoCopy, updateStatus, World.log, noClipboardPlatform,
      samplePlatform, tryCatch, handleFileCatch]
  · simp only [handleFile]
    rw [h1]
    simp [transcribeAndShow, autoCopy, updateStatus, World.log, noClipboardPlatform,
      samplePlatform, tryCatch, handleFileCatch, sample_trim]
  · rw [h2]
    simp [transcribeAndShow, autoCopy, updateStatus, World.log, rejectedWritePlatform,
      samplePlatform]
  · rw [h3]
    simp [transcribeAndShow, autoCopy, updateStatus, World.log, failingFeedbackPlatform,
      samplePlatform, showCopyFeedback]

end JuneWebAudio
